import Mathlib

/-!
Verification of the Studizen OTP issuance/verification workflow.

Shallow embedding of the code in `src/utils/otpUtils.ts` (`generateOTP`,
`isOTPExpired`, `getOTPExpirationTime`), `src/components/RegisterPage.tsx`
(`onSubmit`), `src/components/VerificationPage.tsx` (`handleVerify`,
`handleResendCode`, cooldown effect), `src/components/AdminLoginPage.tsx`
(`onSubmit`) and the login form variant (`LoginForm.onSubmit`).

Timestamps are modelled as integers (milliseconds since the epoch, the unit
of JavaScript `Date`).  `Math.random()` is modelled as an explicit rational
input `r` with `0 ≤ r < 1`.
-/

namespace Studizen

/-- A row of the `otp_verifications` table (migration + `OTPVerification`
interface in `src/types/database.ts`): `user_id`, `email`, `otp_code`,
`expires_at`, `is_used`, `created_at`. -/
structure OTPRecord where
  userId : Option Nat
  email : String
  otpCode : String
  expiresAt : Int
  isUsed : Bool
  createdAt : Int
deriving Repr, DecidableEq

/-- A toast notification as produced by `toast({...})` calls:
`variant: "destructive"` flag, title and description. -/
structure Toast where
  destructive : Bool
  title : String
  description : String
deriving Repr, DecidableEq

/-! ## `src/utils/otpUtils.ts` -/

/-- Decimal representation of a natural number as a digit list, most
significant digit first — the digits of JavaScript `Number.prototype.toString()`
in base 10. -/
def decDigits (n : Nat) : List Nat := (Nat.digits 10 n).reverse

/-- The decimal string produced by JavaScript `.toString()` on a natural
number. -/
def decString (n : Nat) : String := String.mk (List.map Nat.digitChar (decDigits n))

/-- The integer value `Math.floor(1000 + Math.random() * 9000)` computed by
`generateOTP`, with the `Math.random()` draw `r` made explicit. -/
def generateOTPValue (r : ℚ) : Nat := Nat.floor ((1000 : ℚ) + r * 9000)

/-- `generateOTP = () => Math.floor(1000 + Math.random() * 9000).toString()`. -/
def generateOTP (r : ℚ) : String := decString (generateOTPValue r)

/-- `isOTPExpired = (expiresAt) => new Date() > new Date(expiresAt)` :
true exactly when the current time is strictly past `expiresAt`. -/
def isOTPExpired (expiresAt now : Int) : Bool := decide (expiresAt < now)

/-- `getOTPExpirationTime`: takes the current time and adds 10 minutes
(`now.setMinutes(now.getMinutes() + 10)`), i.e. 600000 milliseconds. -/
def getOTPExpirationTime (now : Int) : Int := now + 10 * 60 * 1000

/-! ## `src/components/VerificationPage.tsx` — `handleVerify` -/

/-- Outcome of one `handleVerify` call: whether `onVerificationSuccess` was
invoked and which toasts were shown. -/
structure VerifyResult where
  successInvoked : Bool
  toasts : List Toast
deriving Repr, DecidableEq

/-- `handleVerify` from `VerificationPage.tsx`: joins the four input boxes
(`otp.join('')`); if the joined code is not 4 characters long it shows the
"Kode OTP Tidak Lengkap" toast and returns; otherwise it simulates
verification (`await new Promise(...)`, which cannot reject), shows the
success toast, and invokes `onVerificationSuccess`.  Note: it consults no
stored record and takes neither the store nor the email into account. -/
def handleVerify (otp : List String) : VerifyResult :=
  let otpCode := String.join otp
  if otpCode.length ≠ 4 then
    ⟨false, [⟨true, "Kode OTP Tidak Lengkap", "Masukkan 4 digit kode OTP"⟩]⟩
  else
    ⟨true, [⟨false, "Verifikasi Berhasil", "Akun Anda telah diverifikasi"⟩]⟩

/-- `verify` as specified (spec §4.1), for comparison with `handleVerify`:
result of looking up the most recently created unused record matching
email and code, then testing expiry. -/
inductive SpecVerifyOutcome where
  | success
  | expired
  | notFound
deriving Repr, DecidableEq

/-- The most recently created record of a list (maximal `createdAt`),
earlier entries winning ties the way a stable descending sort would. -/
def pickLatest (l : List OTPRecord) : Option OTPRecord :=
  l.foldl
    (fun acc r0 =>
      match acc with
      | none => some r0
      | some b => if b.createdAt < r0.createdAt then some r0 else some b)
    none

/-- `specVerify`, written from the spec (§4.1) rather than from the source:
filter the store to unused records matching email and code, take the most
recently created; none → `notFound`, found but `now > expiresAt` →
`expired`, otherwise `success`. -/
def specVerify (store : List OTPRecord) (email code : String) (now : Int) :
    SpecVerifyOutcome :=
  let live := store.filter
    (fun r0 => r0.email == email && r0.otpCode == code && !r0.isUsed)
  match pickLatest live with
  | none => SpecVerifyOutcome.notFound
  | some r0 => if r0.expiresAt < now then SpecVerifyOutcome.expired
               else SpecVerifyOutcome.success

/-! ## `src/components/VerificationPage.tsx` — resend cooldown -/

/-- The `resendCooldown` state starts at `useState(0)`. -/
def cooldownInit : Nat := 0

/-- The resend button is rendered with `disabled={resendCooldown > 0}`. -/
def resendDisabled (c : Nat) : Bool := decide (0 < c)

/-- `handleResendCode` sets the cooldown to 60; the click can only happen
while the button is enabled, i.e. when the cooldown is 0. -/
def handleResendCode (c : Nat) : Option Nat :=
  if resendDisabled c then none else some 60

/-- The `useEffect` on `resendCooldown`: when it is positive, a 1-second
timer decrements it by one; at zero no timer is scheduled. -/
def cooldownTick (c : Nat) : Nat := if 0 < c then c - 1 else c

/-- Cooldown values reachable on a verification screen instance: the initial
0, plus anything reachable through resend clicks and timer ticks. -/
inductive CooldownReachable : Nat → Prop where
  | init : CooldownReachable cooldownInit
  | resend {c c2 : Nat} : CooldownReachable c → handleResendCode c = some c2 →
      CooldownReachable c2
  | tick {c : Nat} : CooldownReachable c → CooldownReachable (cooldownTick c)

/-! ## `src/components/RegisterPage.tsx` — `onSubmit` -/

/-- Outcomes of the external calls made by `RegisterPage.onSubmit`, supplied
as inputs to the embedding: does the `profiles` query find the email, does
`supabase.auth.signUp` error, which user (if any) it returns, does the
`otp_verifications` insert error, and does the `sendOTPEmail` fetch throw. -/
structure RegisterEnv where
  existingUser : Bool
  authError : Bool
  authUser : Option Nat
  otpInsertError : Bool
  emailSendError : Bool
deriving Repr, DecidableEq

/-- Effects of one `RegisterPage.onSubmit` run: toasts shown, the record
inserted into `otp_verifications` (if any), the `sendOTPEmail(email, otp,
name)` call if one was made, and the argument of `onRegisterSuccess` if it
was invoked. -/
structure RegisterResult where
  toasts : List Toast
  otpInserted : Option OTPRecord
  emailCall : Option (String × String × String)
  successInvoked : Option String
deriving Repr, DecidableEq

/-- `RegisterPage.onSubmit`, with the current time `now` and the
`Math.random()` draw `r` made explicit.  Control flow mirrors the source:
existing-email check, `signUp`, `generateOTP` + `getOTPExpirationTime`,
insert into `otp_verifications` (returning on error before any email
attempt), then `sendOTPEmail` — on dispatch failure the toast embeds the
raw code ("Silakan masukkan kode OTP: " + otp) and `onRegisterSuccess` is
still invoked. -/
def registerOnSubmit (env : RegisterEnv) (now : Int) (r : ℚ)
    (email username : String) : RegisterResult :=
  if env.existingUser then
    ⟨[⟨true, "Registrasi Gagal", "Email sudah terdaftar"⟩], none, none, none⟩
  else if env.authError then
    ⟨[⟨true, "Registrasi Gagal", "auth error message"⟩], none, none, none⟩
  else
    match env.authUser with
    | none =>
        ⟨[⟨true, "Registrasi Gagal", "Gagal membuat akun"⟩], none, none, none⟩
    | some uid =>
        let otp := generateOTP r
        let expiresAt := getOTPExpirationTime now
        if env.otpInsertError then
          ⟨[⟨true, "Error", "Gagal menyimpan kode verifikasi"⟩],
            none, none, none⟩
        else
          let inserted : OTPRecord :=
            ⟨some uid, email, otp, expiresAt, false, now⟩
          if env.emailSendError then
            ⟨[⟨false, "Registrasi Berhasil",
                "Akun berhasil dibuat. Silakan masukkan kode OTP: " ++ otp⟩],
              some inserted, some (email, otp, username), some email⟩
          else
            ⟨[⟨false, "Registrasi Berhasil",
                "Kode verifikasi telah dikirim ke email Anda"⟩],
              some inserted, some (email, otp, username), some email⟩

/-- Effect of an `onSubmit` run on the `otp_verifications` table: the new
row is appended; no existing row is touched (the source performs no update
on prior records). -/
def applyRegister (store : List OTPRecord) (res : RegisterResult) :
    List OTPRecord :=
  match res.otpInserted with
  | some record => store ++ [record]
  | none => store

/-- The unused (`is_used = false`) records of a given email, i.e. the result
of the query `eq('email', email).eq('is_used', false)`. -/
def unusedFor (store : List OTPRecord) (email : String) : List OTPRecord :=
  store.filter (fun r0 => r0.email == email && !r0.isUsed)

/-! ## `src/components/AdminLoginPage.tsx` and `LoginForm` -/

/-- The hardcoded admin email literal. -/
def adminEmail : String := "Adminstudizen@studizen.com"

/-- The hardcoded admin password literal. -/
def adminPassword : String := "admin123"

/-- Effects of one `AdminLoginPage.onSubmit` run. -/
structure AdminLoginResult where
  successInvoked : Bool
  authCalled : Bool
  toasts : List Toast
deriving Repr, DecidableEq

/-- `AdminLoginPage.onSubmit`: a literal comparison of the submitted email
and password against the hardcoded credentials; on match it toasts and
invokes `onLoginSuccess`, otherwise it toasts a failure.  No call to the
auth collaborator occurs on either path. -/
def adminLoginOnSubmit (email password : String) : AdminLoginResult :=
  if email == adminEmail && password == adminPassword then
    ⟨true, false, [⟨false, "Login Berhasil", "Selamat datang, Admin!"⟩]⟩
  else
    ⟨false, false, [⟨true, "Login Gagal", "Email atau password admin salah"⟩]⟩

/-- Outcomes of the external calls made by `LoginForm.onSubmit`: does
`signInWithPassword` error, which user (if any) it returns, and the result
of the `profiles` query — `none` when no row is found, `some v` for a row
whose nullable `is_verified` column holds `v`. -/
structure LoginEnv where
  authError : Bool
  authUser : Option Nat
  profileVerified : Option (Option Bool)
deriving Repr, DecidableEq

/-- Effects of one `LoginForm.onSubmit` run: the argument of
`onLoginSuccess` if it was invoked (`true` means the admin path), whether
`signInWithPassword` was called, whether `signOut` was called, and the
toasts shown. -/
structure LoginResult where
  successInvoked : Option Bool
  authCalled : Bool
  signedOut : Bool
  toasts : List Toast
deriving Repr, DecidableEq

/-- JavaScript truthiness of the nullable `is_verified` column as tested by
`!profile.is_verified`: `null` and `false` are both falsy. -/
def isVerifiedTruthy (v : Option Bool) : Bool := v.getD false

/-- `LoginForm.onSubmit` (login page variant): hardcoded admin short-circuit
before any auth call; then `signInWithPassword`; then the `profiles`
verification check — `if (profile && !profile.is_verified)` signs the user
out and returns without invoking `onLoginSuccess`. -/
def loginOnSubmit (email password : String) (env : LoginEnv) : LoginResult :=
  if email == adminEmail && password == adminPassword then
    ⟨some true, false, false,
      [⟨false, "Login Berhasil", "Selamat datang, Admin!"⟩]⟩
  else if env.authError then
    ⟨none, true, false, [⟨true, "Login Gagal", "Email atau password salah"⟩]⟩
  else
    match env.authUser with
    | none =>
        ⟨none, true, false,
          [⟨true, "Login Gagal", "Tidak dapat masuk ke akun"⟩]⟩
    | some _ =>
        match env.profileVerified with
        | some v =>
            if !isVerifiedTruthy v then
              ⟨none, true, true,
                [⟨true, "Akun Belum Diverifikasi",
                  "Silakan verifikasi akun Anda terlebih dahulu"⟩]⟩
            else
              ⟨some false, true, false,
                [⟨false, "Login Berhasil", "Selamat datang kembali!"⟩]⟩
        | none =>
            ⟨some false, true, false,
              [⟨false, "Login Berhasil", "Selamat datang kembali!"⟩]⟩

/-! ## VerificationSession attempt limiting -/

/-- Modelled from the spec: the VerificationPage variant that tracks a
client-side attempt count (spec §4.1 attempt policy and §9, "the source
exposes one variant where verify attempt-limiting is tracked purely
client-side") is not among the provided sources — the provided
`VerificationPage.tsx` keeps no attempt state.  Per the spec, a
VerificationSession tracks the attempt count (0–5) and the resend cooldown
for one verification screen instance. -/
structure VerificationSession where
  attempts : Nat
  cooldown : Nat
deriving Repr, DecidableEq

/-- Modelled from the spec: a fresh verification screen starts with zero
attempts and no cooldown. -/
def sessionInit : VerificationSession := ⟨0, 0⟩

/-- Modelled from the spec: a verify call is permitted only while fewer
than 5 attempts have been made; a permitted call increments the count. -/
def sessionVerify (s : VerificationSession) : Option VerificationSession :=
  if s.attempts < 5 then some ⟨s.attempts + 1, s.cooldown⟩ else none

/-- Modelled from the spec: a resend is permitted only when the cooldown is
0; it resets the attempt count to zero and starts a 60-second cooldown. -/
def sessionResend (s : VerificationSession) : Option VerificationSession :=
  if s.cooldown = 0 then some ⟨0, 60⟩ else none

/-- Modelled from the spec: the cooldown timer decrements once per second
while positive. -/
def sessionTick (s : VerificationSession) : VerificationSession :=
  if 0 < s.cooldown then ⟨s.attempts, s.cooldown - 1⟩ else s

/-- Session states reachable on one verification screen instance. -/
inductive SessionReachable : VerificationSession → Prop where
  | init : SessionReachable sessionInit
  | verify {s t : VerificationSession} : SessionReachable s →
      sessionVerify s = some t → SessionReachable t
  | resend {s t : VerificationSession} : SessionReachable s →
      sessionResend s = some t → SessionReachable t
  | tick {s : VerificationSession} : SessionReachable s →
      SessionReachable (sessionTick s)

/-! ## Theorems -/

/-- C7: an OTP record is issued with `expiresAt` equal to its creation time
plus 10 minutes (600000 ms), both as computed by `getOTPExpirationTime` and
as stored by `RegisterPage.onSubmit`; and the expiry test of `isOTPExpired`
is boundary-inclusive — the record counts as unexpired at every time up to
and including `expiresAt`, and as expired at every time strictly after it. -/
theorem C7_expiry_offset_and_boundary :
    (∀ now : Int, getOTPExpirationTime now = now + 600000) ∧
    (∀ (env : RegisterEnv) (now : Int) (r : ℚ) (email username : String)
        (record : OTPRecord),
      (registerOnSubmit env now r email username).otpInserted = some record →
      record.expiresAt = record.createdAt + 600000) ∧
    (∀ e t : Int, isOTPExpired e t = false ↔ t ≤ e) ∧
    (∀ e t : Int, isOTPExpired e t = true ↔ e < t) := by
  refine ⟨?_, ?_, ?_, ?_⟩
  · intro now
    simp [getOTPExpirationTime]
  · intro env now r email username record h
    unfold registerOnSubmit at h
    split at h
    · simp at h
    · split at h
      · simp at h
      · split at h
        · simp at h
        · split at h
          · simp at h
          · split at h
            · simp only [Option.some.injEq] at h
              rw [← h]
              simp [getOTPExpirationTime]
            · simp only [Option.some.injEq] at h
              rw [← h]
              simp [getOTPExpirationTime]
  · intro e t
    simp [isOTPExpired]
  · intro e t
    simp [isOTPExpired]

/-- C7 witness: a concrete registration at time 0 inserts a record whose
expiry is its creation time plus 600000 ms. -/
theorem C7_expiry_offset_and_boundary_witness :
    (OTPRecord.mk (some 1) "a@x.com" (generateOTP 0)
        (getOTPExpirationTime 0) false 0).expiresAt =
      (OTPRecord.mk (some 1) "a@x.com" (generateOTP 0)
        (getOTPExpirationTime 0) false 0).createdAt + 600000 :=
  C7_expiry_offset_and_boundary.2.1 ⟨false, false, some 1, false, false⟩
    0 0 "a@x.com" "alice" _ rfl

/-- C9: admin access is a client-side literal credential comparison —
`AdminLoginPage.onSubmit` invokes `onLoginSuccess` exactly when the email is
the hardcoded admin address and the password the hardcoded admin password,
and it never calls the auth collaborator; the login form's admin
short-circuit behaves the same way. -/
theorem C9_admin_login_literal_comparison :
    ∀ email password : String,
      ((adminLoginOnSubmit email password).successInvoked = true ↔
        (email = adminEmail ∧ password = adminPassword)) ∧
      (adminLoginOnSubmit email password).authCalled = false ∧
      (∀ env : LoginEnv, email = adminEmail → password = adminPassword →
        (loginOnSubmit email password env).successInvoked = some true ∧
        (loginOnSubmit email password env).authCalled = false) := by
  intro email password
  refine ⟨?_, ?_, ?_⟩
  · unfold adminLoginOnSubmit
    split
    · next h =>
        simp only [Bool.and_eq_true, beq_iff_eq] at h
        simpa using h
    · next h =>
        simp only [Bool.and_eq_true, beq_iff_eq] at h
        simpa using h
  · unfold adminLoginOnSubmit
    split <;> rfl
  · intro env he hp
    subst he
    subst hp
    constructor <;> simp [loginOnSubmit]

/-- C9 witness: the correct hardcoded pair grants access with no auth call,
and a wrong password is refused. -/
theorem C9_admin_login_literal_comparison_witness :
    (adminLoginOnSubmit "Adminstudizen@studizen.com" "admin123").successInvoked
        = true ∧
    (loginOnSubmit "Adminstudizen@studizen.com" "admin123"
        ⟨false, none, none⟩).authCalled = false ∧
    (adminLoginOnSubmit "Adminstudizen@studizen.com" "wrong").successInvoked
        = false :=
  ⟨((C9_admin_login_literal_comparison
      "Adminstudizen@studizen.com" "admin123").1).mpr ⟨rfl, rfl⟩,
   ((C9_admin_login_literal_comparison
      "Adminstudizen@studizen.com" "admin123").2.2 ⟨false, none, none⟩
      rfl rfl).2,
   by decide⟩

/-- C8: the resend cooldown of a verification screen always stays in
[0, 60]: a resend (possible only while the button is enabled, i.e. cooldown
0) sets it to 60, each one-second tick decrements a positive cooldown by 1,
and the resend button is disabled exactly while the cooldown is positive. -/
theorem C8_resend_cooldown_bounds :
    (∀ c : Nat, CooldownReachable c → c ≤ 60) ∧
    (∀ c : Nat, resendDisabled c = false → handleResendCode c = some 60) ∧
    (∀ c c2 : Nat, handleResendCode c = some c2 → c = 0 ∧ c2 = 60) ∧
    (∀ c : Nat, 0 < c → cooldownTick c = c - 1) ∧
    (∀ c : Nat, resendDisabled c = true ↔ 0 < c) := by
  have hres : ∀ c c2 : Nat, handleResendCode c = some c2 → c = 0 ∧ c2 = 60 := by
    intro c c2 h
    unfold handleResendCode at h
    split at h
    · simp at h
    · next hd =>
        simp only [Option.some.injEq] at h
        refine ⟨?_, h.symm⟩
        simpa [resendDisabled] using hd
  refine ⟨?_, ?_, hres, ?_, ?_⟩
  · intro c hc
    induction hc with
    | init => simp [cooldownInit]
    | resend _ h _ =>
        rcases hres _ _ h with ⟨-, h60⟩
        omega
    | tick _ ih =>
        unfold cooldownTick
        split <;> omega
  · intro c h
    simp [handleResendCode, h]
  · intro c h
    simp [cooldownTick, h]
  · intro c
    simp [resendDisabled]

/-- C8 witness: from a fresh screen (cooldown 0) the button is enabled and a
resend yields 60. -/
theorem C8_resend_cooldown_bounds_witness :
    cooldownInit ≤ 60 ∧ handleResendCode 0 = some 60 ∧ cooldownTick 60 = 59 :=
  ⟨C8_resend_cooldown_bounds.1 cooldownInit CooldownReachable.init,
   C8_resend_cooldown_bounds.2.1 0 (by decide),
   C8_resend_cooldown_bounds.2.2.2.1 60 (by decide)⟩

/-- C4: when the OTP record was persisted but the email dispatch fails,
`RegisterPage.onSubmit` still treats the record as issued — a (non-error)
toast shows the raw code directly, `onRegisterSuccess` is invoked with the
email so the flow proceeds to the verification screen, and the inserted
record and success continuation are exactly those of the
dispatch-succeeded run (no retry, no abort). -/
theorem C4_dispatch_failure_fallback :
    ∀ (now : Int) (r : ℚ) (email username : String) (uid : Nat),
      registerOnSubmit ⟨false, false, some uid, false, true⟩
          now r email username =
        ⟨[⟨false, "Registrasi Berhasil",
            "Akun berhasil dibuat. Silakan masukkan kode OTP: "
              ++ generateOTP r⟩],
          some ⟨some uid, email, generateOTP r,
            getOTPExpirationTime now, false, now⟩,
          some (email, generateOTP r, username),
          some email⟩ ∧
      (registerOnSubmit ⟨false, false, some uid, false, true⟩
          now r email username).successInvoked =
        (registerOnSubmit ⟨false, false, some uid, false, false⟩
          now r email username).successInvoked ∧
      (registerOnSubmit ⟨false, false, some uid, false, true⟩
          now r email username).otpInserted =
        (registerOnSubmit ⟨false, false, some uid, false, false⟩
          now r email username).otpInserted := by
  intro now r email username uid
  exact ⟨rfl, rfl, rfl⟩

/-- C5: when the `otp_verifications` insert fails, `RegisterPage.onSubmit`
halts: a destructive "try again"-style toast is shown, no record counts as
issued, the email dispatch is never attempted, and `onRegisterSuccess` is
not invoked — regardless of whether the dispatcher would have failed. -/
theorem C5_persistence_failure_halts :
    ∀ (now : Int) (r : ℚ) (email username : String) (uid : Nat) (es : Bool),
      registerOnSubmit ⟨false, false, some uid, true, es⟩
          now r email username =
        ⟨[⟨true, "Error", "Gagal menyimpan kode verifikasi"⟩],
          none, none, none⟩ := by
  intro now r email username uid es
  rfl

/-- C10: when the hardcoded admin short-circuit does not apply, password
sign-in succeeds, and the profile row exists with `is_verified = false`,
`LoginForm.onSubmit` signs the user out and never invokes `onLoginSuccess`:
an unverified account cannot reach the logged-in state through the form. -/
theorem C10_unverified_login_signed_out :
    ∀ (email password : String) (env : LoginEnv) (uid : Nat),
      ¬(email = adminEmail ∧ password = adminPassword) →
      env.authError = false →
      env.authUser = some uid →
      env.profileVerified = some (some false) →
      (loginOnSubmit email password env).signedOut = true ∧
      (loginOnSubmit email password env).successInvoked = none := by
  intro email password env uid hadm hae hau hpv
  have hb : (email == adminEmail && password == adminPassword) = false := by
    rcases Bool.eq_false_or_eq_true
        (email == adminEmail && password == adminPassword) with h | h
    · simp only [Bool.and_eq_true, beq_iff_eq] at h
      exact absurd h hadm
    · exact h
  simp [loginOnSubmit, hb, hae, hau, hpv, isVerifiedTruthy]

/-- C10 witness: a concrete unverified non-admin login is signed out and the
success continuation is not invoked. -/
theorem C10_unverified_login_signed_out_witness :
    (loginOnSubmit "u@x.com" "pw"
        ⟨false, some 1, some (some false)⟩).signedOut = true ∧
    (loginOnSubmit "u@x.com" "pw"
        ⟨false, some 1, some (some false)⟩).successInvoked = none :=
  C10_unverified_login_signed_out "u@x.com" "pw"
    ⟨false, some 1, some (some false)⟩ 1 (by decide) rfl rfl rfl

/-- C1: the claim fails on the code.  With the store holding exactly one
live record for a@x.com carrying code 4821, the specified `verify` returns
`notFound` for submitted code 0000, but `handleVerify` — which consults no
stored record at all — invokes `onVerificationSuccess` for that same wrong
code, and indeed for every complete 4-digit input. -/
theorem C1_wrong_code_accepted_by_handleVerify :
    specVerify [⟨some 1, "a@x.com", "4821", 600000, false, 0⟩]
        "a@x.com" "0000" 1 = SpecVerifyOutcome.notFound ∧
    (handleVerify ["0", "0", "0", "0"]).successInvoked = true := by
  constructor
  · rfl
  · rfl

/-- C2: the claim fails on the code.  `RegisterPage.onSubmit` inserts the
new OTP row without updating any prior row, so two sequential successful
registrations for a@x.com leave two `is_used = false` records for that
email — the claimed supersession invariant (at most one unused record)
does not hold. -/
theorem C2_no_supersession_two_unused :
    (unusedFor
      (applyRegister
        (applyRegister []
          (registerOnSubmit ⟨false, false, some 1, false, false⟩
            0 0 "a@x.com" "alice"))
        (registerOnSubmit ⟨false, false, some 1, false, false⟩
          60000 0 "a@x.com" "alice"))
      "a@x.com").length = 2 := by
  rfl

/-- C3: per spec-modelled VerificationSession semantics, every reachable
session state has at most 5 attempts, a verify call is refused exactly when
5 attempts have already been made (so a 6th verify without an intervening
resend is never permitted), each permitted verify increments the count by
one, and a resend resets the count to zero. -/
theorem C3_attempt_ceiling :
    (∀ s : VerificationSession, SessionReachable s → s.attempts ≤ 5) ∧
    (∀ s : VerificationSession, sessionVerify s = none ↔ 5 ≤ s.attempts) ∧
    (∀ s t : VerificationSession, sessionVerify s = some t →
      s.attempts < 5 ∧ t.attempts = s.attempts + 1) ∧
    (∀ s t : VerificationSession, sessionResend s = some t →
      t.attempts = 0) := by
  have hver : ∀ s t : VerificationSession, sessionVerify s = some t →
      s.attempts < 5 ∧ t.attempts = s.attempts + 1 := by
    intro s t h
    unfold sessionVerify at h
    split at h
    · next hlt =>
        simp only [Option.some.injEq] at h
        exact ⟨hlt, by rw [← h]⟩
    · simp at h
  have hres : ∀ s t : VerificationSession, sessionResend s = some t →
      t.attempts = 0 := by
    intro s t h
    unfold sessionResend at h
    split at h
    · simp only [Option.some.injEq] at h
      rw [← h]
    · simp at h
  have hinv : ∀ s : VerificationSession, SessionReachable s →
      s.attempts ≤ 5 := by
    intro s hs
    induction hs with
    | init => simp [sessionInit]
    | verify _ h _ =>
        rcases hver _ _ h with ⟨hlt, heq⟩
        omega
    | resend _ h _ =>
        rw [hres _ _ h]
        omega
    | tick _ ih =>
        unfold sessionTick
        split <;> simpa using ih
  refine ⟨hinv, ?_, hver, hres⟩
  intro s
  constructor
  · intro h
    unfold sessionVerify at h
    split at h
    · simp at h
    · next hlt => omega
  · intro h
    unfold sessionVerify
    rw [if_neg (by omega)]

/-- C3 witness: the fresh session has at most 5 attempts, a session at the
ceiling refuses verify, and a resend resets the count. -/
theorem C3_attempt_ceiling_witness :
    sessionInit.attempts ≤ 5 ∧
    sessionVerify ⟨5, 0⟩ = none ∧
    (0 : Nat) = 0 :=
  ⟨C3_attempt_ceiling.1 sessionInit SessionReachable.init,
   (C3_attempt_ceiling.2.1 ⟨5, 0⟩).mpr (by decide),
   C3_attempt_ceiling.2.2.2 ⟨3, 0⟩ ⟨0, 60⟩ rfl⟩

/-- The decimal digit expansion (least significant first) of a number with
exactly four digits. -/
theorem digits_of_four_digit (v : Nat) (h1 : 1000 ≤ v) (h2 : v ≤ 9999) :
    Nat.digits 10 v = [v % 10, v / 10 % 10, v / 100 % 10, v / 1000] := by
  have h10 : (1:ℕ) < 10 := by norm_num
  have e1 : v / 10 / 10 = v / 100 := by omega
  have e2 : v / 100 / 10 = v / 1000 := by omega
  have e3 : v / 1000 / 10 = 0 := by omega
  have p0 : 0 < v := by omega
  have p1 : 0 < v / 10 := by omega
  have p2 : 0 < v / 100 := by omega
  have p3 : 0 < v / 1000 := by omega
  have l3 : v / 1000 % 10 = v / 1000 := by omega
  rw [Nat.digits_def' h10 p0, Nat.digits_def' h10 p1, e1,
      Nat.digits_def' h10 p2, e2, Nat.digits_def' h10 p3, e3, l3]
  simp

/-- C6: for every `Math.random()` draw in [0, 1), `generateOTP` computes an
integer in [1000, 9999] and renders it as a decimal string of exactly 4
characters whose leading digit is nonzero; moreover the set of draws mapped
to a given value `n` in [1000, 9999] is exactly the half-open interval
[(n−1000)/9000, (n−999)/9000) — all of equal width 1/9000, so a uniform
draw yields a uniform value. -/
theorem C6_generateOTP_four_digit_string :
    ∀ r : ℚ, 0 ≤ r → r < 1 →
      (1000 ≤ generateOTPValue r ∧ generateOTPValue r ≤ 9999) ∧
      (generateOTP r).length = 4 ∧
      (generateOTP r).data.head? =
        some (Nat.digitChar (generateOTPValue r / 1000)) ∧
      (generateOTP r).data.head? ≠ some '0' ∧
      (∀ n : Nat, 1000 ≤ n → n ≤ 9999 →
        (generateOTPValue r = n ↔
          ((n : ℚ) - 1000) / 9000 ≤ r ∧ r < ((n : ℚ) - 999) / 9000)) := by
  intro r hr0 hr1
  have hx0 : (0:ℚ) ≤ 1000 + r * 9000 := by nlinarith
  have hv1 : 1000 ≤ generateOTPValue r := by
    unfold generateOTPValue
    exact Nat.le_floor (by push_cast; nlinarith)
  have hv2 : generateOTPValue r ≤ 9999 := by
    unfold generateOTPValue
    have hfl : Nat.floor ((1000:ℚ) + r * 9000) < 10000 := by
      rw [Nat.floor_lt hx0]
      push_cast
      nlinarith
    omega
  have hdig := digits_of_four_digit (generateOTPValue r) hv1 hv2
  have hlen : (generateOTP r).length = 4 := by
    unfold generateOTP decString decDigits
    rw [hdig]
    rfl
  have hhead : (generateOTP r).data.head? =
      some (Nat.digitChar (generateOTPValue r / 1000)) := by
    unfold generateOTP decString decDigits
    rw [hdig]
    rfl
  have hd1 : 1 ≤ generateOTPValue r / 1000 := by omega
  have hd9 : generateOTPValue r / 1000 ≤ 9 := by omega
  have hne : Nat.digitChar (generateOTPValue r / 1000) ≠ '0' := by
    set k := generateOTPValue r / 1000 with hk
    interval_cases k <;> decide
  have hne2 : (generateOTP r).data.head? ≠ some '0' := by
    rw [hhead]
    intro hcontra
    exact hne (Option.some.inj hcontra)
  refine ⟨⟨hv1, hv2⟩, hlen, hhead, hne2, ?_⟩
  intro n hn1 hn2
  unfold generateOTPValue
  rw [Nat.floor_eq_iff hx0]
  constructor
  · rintro ⟨ha, hb⟩
    constructor
    · rw [div_le_iff₀ (by norm_num : (0:ℚ) < 9000)]
      linarith
    · rw [lt_div_iff₀ (by norm_num : (0:ℚ) < 9000)]
      linarith
  · rintro ⟨ha, hb⟩
    rw [div_le_iff₀ (by norm_num : (0:ℚ) < 9000)] at ha
    rw [lt_div_iff₀ (by norm_num : (0:ℚ) < 9000)] at hb
    constructor
    · linarith
    · linarith

/-- C6 witness: the draw 0 yields the in-range value 1000 and a 4-character
code string. -/
theorem C6_generateOTP_four_digit_string_witness :
    1000 ≤ generateOTPValue 0 ∧ generateOTPValue 0 ≤ 9999 ∧
      (generateOTP 0).length = 4 ∧ (generateOTP 0).data.head? ≠ some '0' :=
  ⟨(C6_generateOTP_four_digit_string 0 (by norm_num) (by norm_num)).1.1,
   (C6_generateOTP_four_digit_string 0 (by norm_num) (by norm_num)).1.2,
   (C6_generateOTP_four_digit_string 0 (by norm_num) (by norm_num)).2.1,
   (C6_generateOTP_four_digit_string 0 (by norm_num) (by norm_num)).2.2.2.1⟩

end Studizen
